import Mathlib

/-!
Verification development for the GameWatch OCR disconnect monitor
(local-OCR variant: `src/App.tsx` together with `src/services/ocrService.ts`).

The embedding models:
  * the detector state (`alertLogic` ref in `App.tsx`) and the per-tick
    transition performed by `performCheck`;
  * the alert dispatcher `triggerAlert` and the offline retry queue
    (`alertQueue` / `processAlertQueue`);
  * the local analyzer `OcrService.analyzeFrame`, its normalization and
    keyword-matching policy, and the `preprocessImage` pipeline.

Timestamps are `Date.now()` millisecond values, modelled as `Nat`;
JavaScript subtraction of two timestamps is modelled as subtraction in
`Int` (so negative differences behave as in the source).  Confidences and
thresholds are JavaScript floating point numbers whose values in this
program are exact decimals; they are modelled as `ℚ`.  JavaScript
truthiness tests on `number | null` fields (`!logic.disconnectStartTime`)
are modelled by `jsFalsy`, which is true on `none` and on `some 0`.
-/

/-- `DetectionResult` from `src/types.ts` (the local variant additionally
attaches `debugText`/`processedImage`, which no claim inspects). -/
structure DetectionResult where
  isDisconnected : Bool
  confidence : ℚ
  reason : String
deriving Repr, DecidableEq

/-- The `alertLogic` ref of `App.tsx`: `disconnectStartTime` and
`lastAlertTime`, both `number | null` millisecond timestamps. -/
structure AlertLogic where
  disconnectStartTime : Option Nat
  lastAlertTime : Option Nat
deriving Repr, DecidableEq

/-- An alert emission: the call `triggerAlert(result, Math.floor(durationMs/1000))`
made by `performCheck`, carrying the result's reason and the duration tag. -/
structure AlertEvent where
  reason : String
  durationSeconds : Nat
deriving Repr, DecidableEq

/-- JavaScript truthiness test `!x` for `x : number | null` holding a
timestamp: falsy iff `null` or `0`. -/
def jsFalsy : Option Nat → Bool
  | none => true
  | some n => n == 0

/-- `String.prototype.startsWith`, embedded as a character-list prefix
test (`String.startsWith` agrees with it on every input). -/
def strStartsWith (s p : String) : Bool :=
  p.data.isPrefixOf s.data

/-- One tick of the detector: the alert-logic portion of `performCheck`
in `src/App.tsx` (local variant), given the analyzer's `result`, the tick
time `now = Date.now()` and the current `alertLogic` state.  Returns the
updated state and the alert emitted on this tick, if any.

Mirrors the source:
  * `if (result.reason && result.reason.startsWith("OCR Model Loading")) return;`
  * `isDisconnected = result.isDisconnected && result.confidence >= settings.sensitivity`
  * on the disconnected branch, set `disconnectStartTime` when falsy, then
    alert iff `durationMs < 600000 && durationMs >= 15000 &&
    (!lastAlertTime || now - lastAlertTime >= 60000)`;
  * on the connected branch, reset both fields when `disconnectStartTime`
    is truthy. -/
def performCheckStep (sensitivity : ℚ) (result : DetectionResult) (now : Nat)
    (logic : AlertLogic) : AlertLogic × Option AlertEvent :=
  if (result.reason != "") && strStartsWith result.reason "OCR Model Loading" then
    (logic, none)
  else
    let isDisconnected := result.isDisconnected && decide (sensitivity ≤ result.confidence)
    if isDisconnected then
      let start : Nat :=
        if jsFalsy logic.disconnectStartTime then now else logic.disconnectStartTime.getD now
      let durationMs : Int := (now : Int) - (start : Int)
      if durationMs < 600000 then
        let shouldAlert : Bool :=
          if 15000 ≤ durationMs then
            if jsFalsy logic.lastAlertTime then true
            else decide (60000 ≤ (now : Int) - (logic.lastAlertTime.getD 0 : Int))
          else false
        if shouldAlert then
          ({ disconnectStartTime := some start, lastAlertTime := some now },
            some { reason := result.reason, durationSeconds := (durationMs / 1000).toNat })
        else
          ({ disconnectStartTime := some start, lastAlertTime := logic.lastAlertTime }, none)
      else
        ({ disconnectStartTime := some start, lastAlertTime := logic.lastAlertTime }, none)
    else
      if jsFalsy logic.disconnectStartTime then
        (logic, none)
      else
        ({ disconnectStartTime := none, lastAlertTime := none }, none)

/-- A run of the detector over a list of ticks `(result, now)`, threading
the `alertLogic` state and collecting the emitted alerts tagged with their
emission times, in order. -/
def runDetector (sensitivity : ℚ) :
    List (DetectionResult × Nat) → AlertLogic → AlertLogic × List (Nat × AlertEvent)
  | [], logic => (logic, [])
  | (r, now) :: rest, logic =>
    let step := performCheckStep sensitivity r now logic
    let tail := runDetector sensitivity rest step.1
    (tail.1, (match step.2 with
              | some e => [(now, e)]
              | none => []) ++ tail.2)

/-- The detector state at the start of a monitoring session
(`alertLogic.current = { disconnectStartTime: null, lastAlertTime: null }`). -/
def initLogic : AlertLogic := { disconnectStartTime := none, lastAlertTime := none }




/-! ## The local analyzer (`src/services/ocrService.ts`) -/

/-- A character survives the normalization
`text.replace(/[^一-龥a-zA-Z0-9]/g, "")` iff it is a CJK ideograph
in `U+4E00`–`U+9FA5` or an ASCII letter or digit. -/
def keepChar (c : Char) : Bool :=
  (0x4e00 ≤ c.toNat && c.toNat ≤ 0x9fa5) ||
  (97 ≤ c.toNat && c.toNat ≤ 122) ||
  (65 ≤ c.toNat && c.toNat ≤ 90) ||
  (48 ≤ c.toNat && c.toNat ≤ 57)

/-- The `cleanText` normalization of `analyzeFrame`: drop every character
that is not a CJK ideograph or an ASCII alphanumeric. -/
def normalizeText (s : String) : String :=
  String.mk (s.data.filter keepChar)

/-- One entry of the `errorKeywords` list: a literal pattern, matched as a
substring, optionally case-insensitively (the `/i` regex flag). -/
structure Keyword where
  pattern : String
  ignoreCase : Bool
deriving Repr, DecidableEq

/-- The `errorKeywords` list of `OcrService`, in source order. -/
def errorKeywords : List Keyword :=
  [⟨"网络错误", false⟩, ⟨"请重新登录", false⟩, ⟨"网络有问题", false⟩,
   ⟨"检测一下吧", false⟩,
   ⟨"请重新连接", false⟩, ⟨"断开连接", false⟩, ⟨"连接超时", false⟩,
   ⟨"网络异常", false⟩, ⟨"服务器断开", false⟩, ⟨"点击重试", false⟩,
   ⟨"networkerror", true⟩, ⟨"connectionlost", true⟩, ⟨"disconnected", true⟩,
   ⟨"pleaserelogin", true⟩, ⟨"servererror", true⟩, ⟨"timedout", true⟩]

/-- First occurrence of `needle` in the character list, where matching
folds characters through `fold` (lower-casing for `/i` patterns) but the
returned slice keeps the original characters — the behaviour of
`cleanText.match(regex)?.[0]` for a literal pattern. -/
def matchSliceAux (fold : Char → Char) (needle : List Char) :
    List Char → Option (List Char)
  | [] => if needle.isEmpty then some [] else none
  | c :: t =>
    if needle.isPrefixOf ((c :: t).map fold) then some ((c :: t).take needle.length)
    else matchSliceAux fold needle t

/-- The substring of `s` matched by keyword `k`, if any: models
`regex.test(cleanText)` / `cleanText.match(regex)?.[0]` for the literal
(possibly case-insensitive) patterns of `errorKeywords`. -/
def matchSlice (k : Keyword) (s : String) : Option String :=
  let fold : Char → Char := if k.ignoreCase then Char.toLower else id
  (matchSliceAux fold (k.pattern.data.map fold) s.data).map String.mk

/-- `regex.test(cleanText)` for a keyword of `errorKeywords`. -/
def kwTest (k : Keyword) (s : String) : Bool :=
  (matchSlice k s).isSome

/-- The keyword-scan half of `analyzeFrame`, applied to the raw recognized
`text` and the recognizer `confidence` (tesseract reports it on a 0–100
scale): normalize, first-match-wins scan of `errorKeywords`, and on a hit
report `confidence = Math.max(0.85, confidence / 100)` with the matched
substring in `reason`. `mkRat 85 100` renders the literal `0.85`. -/
def analyzeRecognized (text : String) (confidence : ℚ) : DetectionResult :=
  let cleanText := normalizeText text
  match errorKeywords.find? (fun k => kwTest k cleanText) with
  | some k =>
    let matchString := (matchSlice k cleanText).getD "Error Keyword"
    { isDisconnected := true
      confidence := max (mkRat 85 100) (confidence / 100)
      reason := "Detected: \"" ++ matchString ++ "\"" }
  | none =>
    { isDisconnected := false
      confidence := 0
      reason := "No error text detected" }

/-- The private initialization state of `OcrService`: whether the
tesseract worker is ready (`this.worker !== null`) and the permanent
initialization error, if any (`this.initError`). -/
structure OcrState where
  workerReady : Bool
  initError : Option String
deriving Repr, DecidableEq

/-- `OcrService.analyzeFrame`.  The outcomes of the two awaited external
steps are passed in explicitly: `preOutcome` is the settled value of the
`preprocessImage` promise (`none` when it rejected, which the enclosing
`try` converts to the failure result with the event's missing message
defaulting to `"Unknown error"`), and `recogOutcome` is the settled
`worker.recognize` call (`Except.error m` when it threw with message `m`,
otherwise the recognized text and confidence). -/
def analyzeFrame (st : OcrState) (preOutcome : Option String)
    (recogOutcome : Except String (String × ℚ)) : DetectionResult :=
  match st.initError with
  | some e =>
    { isDisconnected := false, confidence := 0, reason := "OCR Init Error: " ++ e }
  | none =>
    if !st.workerReady then
      { isDisconnected := false, confidence := 0, reason := "OCR Model Loading..." }
    else
      match preOutcome with
      | none =>
        { isDisconnected := false, confidence := 0, reason := "OCR Failed: Unknown error" }
      | some _ =>
        match recogOutcome with
        | .error m =>
          { isDisconnected := false, confidence := 0, reason := "OCR Failed: " ++ m }
        | .ok (text, confidence) => analyzeRecognized text confidence


/-! ## Image preprocessing (`OcrService.preprocessImage`) -/

/-- One RGBA pixel of a canvas `ImageData` buffer; each channel is a byte
value `0`–`255`. -/
structure Pixel where
  r : Nat
  g : Nat
  b : Nat
  a : Nat
deriving Repr, DecidableEq

/-- The luminosity grayscale of the binarization loop:
`0.2126 * r + 0.7152 * g + 0.0722 * b`. -/
def grayscale (p : Pixel) : ℚ :=
  (2126 / 10000 : ℚ) * p.r + (7152 / 10000 : ℚ) * p.g + (722 / 10000 : ℚ) * p.b

/-- One iteration of the binarization loop: set the three colour channels
to `255` when `gray >= threshold`, else to `0`; the alpha channel is left
untouched. -/
def binarizePixel (threshold : ℚ) (p : Pixel) : Pixel :=
  let val : Nat := if threshold ≤ grayscale p then 255 else 0
  { r := val, g := val, b := val, a := p.a }

/-- The binarization threshold used by `preprocessImage` (`const threshold = 160`). -/
def binarizationThreshold : ℚ := 160

/-- A decoded raster image: dimensions plus the RGBA pixel buffer. -/
structure RawImage where
  width : Nat
  height : Nat
  data : List Pixel
deriving Repr, DecidableEq

/-- The crop/upscale preset of `preprocessImage`:
`(cropWPercent, cropHPercent, scaleFactor)` — `(0.7, 0.6, 2.0)` normally,
`(0.4, 0.4, 3.0)` in focus mode. -/
def preprocessParams (focusMode : Bool) : ℚ × ℚ × ℚ :=
  if focusMode then (mkRat 4 10, mkRat 4 10, 3) else (mkRat 7 10, mkRat 6 10, 2)

/-- `OcrService.preprocessImage`.  The browser collaborators are passed in
explicitly: `decoded` is the result of loading `base64Image` into an
`Image` (`none` when `img.onerror` fires, in which case the promise is
REJECTED — `img.onerror = reject`), `ctxAvail` tells whether
`canvas.getContext('2d')` succeeded (when it does not, the promise
resolves with the ORIGINAL `base64Image` as a fallback), `drawImage`
models the canvas's centered-crop-and-resample of the source rectangle
onto a destination of the given width and height, and `encodeJpeg` models
`canvas.toDataURL('image/jpeg', 0.9)`.  The result is `none` exactly when
the promise rejects. -/
def preprocessImage (drawImage : RawImage → Nat → Nat → RawImage)
    (encodeJpeg : RawImage → String)
    (base64Image : String) (focusMode : Bool)
    (decoded : Option RawImage) (ctxAvail : Bool) : Option String :=
  match decoded with
  | none => none
  | some img =>
    if !ctxAvail then some base64Image
    else
      let params := preprocessParams focusMode
      let canvasW : Nat := ((img.width : ℚ) * params.1 * params.2.2).floor.toNat
      let canvasH : Nat := ((img.height : ℚ) * params.2.1 * params.2.2).floor.toNat
      let scaled := drawImage img canvasW canvasH
      let binarized : RawImage :=
        { scaled with data := scaled.data.map (binarizePixel binarizationThreshold) }
      some (encodeJpeg binarized)

/-! ## Alert dispatch and the offline retry queue (`src/App.tsx`) -/

/-- The settings surface of the local variant (`Settings` in
`src/types.ts` as used by `App.tsx`): webhook URL, 喵提醒 code, poll
interval in seconds, sensitivity threshold, and the local-TTS toggle. -/
structure Settings where
  webhookUrl : String
  meowCode : String
  checkInterval : Nat
  sensitivity : ℚ
  enableLocalSound : Bool

/-- The two outbound destination kinds (`type: 'meow' | 'webhook'`). -/
inductive DestKind
  | meow
  | webhook
deriving Repr, DecidableEq

/-- A `QueuedAlert` of `App.tsx`: a deferred notification attempt
(the random `id` string is not modelled). -/
structure QueuedAlert where
  url : String
  body : Option String
  kind : DestKind
  timestamp : Nat
deriving Repr, DecidableEq

/-- One outbound notification attempt (a meow-trigger GET via
`new Image().src` or a webhook POST via `fetch`). -/
structure OutboundAttempt where
  url : String
  body : Option String
  kind : DestKind
deriving Repr, DecidableEq

/-- The 喵提醒 message text built by `triggerAlert`, with the
`"[延迟补发] "` prefix added when offline. -/
def meowText (isOnline : Bool) (reason : String) (durationSec : Nat)
    (timestamp : String) : String :=
  (if isOnline then "" else "[延迟补发] ") ++
    "游戏掉线提醒 (OCR)\n\n状态: 掉线了\n识别内容: " ++ reason ++
    "\n持续时间: " ++ toString durationSec ++ "秒\n时间: " ++ timestamp

/-- The meow-trigger URL `baseUrl?id=...&text=...&type=json`
(`URLSearchParams` percent-encoding of the parameter values is not
modelled; no claim inspects the URL text). -/
def meowTriggerUrl (meowCode text : String) : String :=
  "https://miaotixing.com/trigger?id=" ++ meowCode ++ "&text=" ++ text ++ "&type=json"

/-- The webhook JSON body built by `triggerAlert`
(`JSON.stringify` string escaping is not modelled; no claim inspects the
body text). -/
def webhookBody (reason : String) (durationSec : Nat) (isoTimestamp : String) : String :=
  "\x7b\"event\":\"GAME_DISCONNECTED\",\"method\":\"LOCAL_OCR\",\"reason\":\"" ++ reason ++
    "\",\"duration\":" ++ toString durationSec ++ ",\"timestamp\":\"" ++ isoTimestamp ++
    "\"\x7d"

/-- `triggerAlert` of `App.tsx` (local variant), restricted to its
outbound behaviour: given the settings, the detection result, the duration
tag, `navigator.onLine`, the current time and the two formatted timestamp
strings, it returns the immediate delivery attempts made and the updated
retry queue.  Purely local effects (TTS / beep and the browser
`Notification`) have no outbound footprint and are not modelled. -/
def triggerAlert (settings : Settings) (result : DetectionResult) (durationSec : Nat)
    (isOnline : Bool) (now : Nat) (timestamp isoTimestamp : String)
    (queue : List QueuedAlert) : List OutboundAttempt × List QueuedAlert :=
  let meowPart : List OutboundAttempt × List QueuedAlert :=
    if settings.meowCode != "" then
      let text := meowText isOnline result.reason durationSec timestamp
      let fullUrl := meowTriggerUrl settings.meowCode text
      if isOnline then ([{ url := fullUrl, body := none, kind := .meow }], [])
      else ([], [{ url := fullUrl, body := none, kind := .meow, timestamp := now }])
    else ([], [])
  let webhookPart : List OutboundAttempt × List QueuedAlert :=
    if settings.webhookUrl != "" then
      let body := webhookBody result.reason durationSec isoTimestamp
      if isOnline then
        ([{ url := settings.webhookUrl, body := some body, kind := .webhook }], [])
      else
        ([], [{ url := settings.webhookUrl, body := some body, kind := .webhook,
                timestamp := now }])
    else ([], [])
  (meowPart.1 ++ webhookPart.1, queue ++ meowPart.2 ++ webhookPart.2)

/-- The replay of one queued alert inside `processAlertQueue`: a meow item
re-fires its URL; a webhook item is re-POSTed only when it carries a body
(`alert.type === 'webhook' && alert.body`). -/
def replayAttempt (q : QueuedAlert) : List OutboundAttempt :=
  match q.kind with
  | .meow => [{ url := q.url, body := none, kind := .meow }]
  | .webhook =>
    match q.body with
    | some b => [{ url := q.url, body := some b, kind := .webhook }]
    | none => []

/-- `processAlertQueue` of `App.tsx`: if the queue is empty do nothing;
otherwise snapshot and clear the queue, then replay every snapshot item in
order (per-item failures are logged and never re-queued, so the queue is
empty afterwards regardless of replay outcomes). -/
def processAlertQueue (queue : List QueuedAlert) :
    List OutboundAttempt × List QueuedAlert :=
  if queue.isEmpty then ([], [])
  else (queue.flatMap replayAttempt, [])

/-- Well-formedness of a queue item as enqueued by `triggerAlert`: meow
items carry no body, webhook items always carry one. -/
def WfQueued (it : QueuedAlert) : Prop :=
  (it.kind = .meow → it.body = none) ∧ (it.kind = .webhook → it.body.isSome = true)

instance : DecidablePred WfQueued := fun it => by
  unfold WfQueued; infer_instance

/-- Invariant of detector states reachable from `initLogic`: any recorded
`lastAlertTime` is at least the 15 s confirmation window (an alert can
only have fired at a time `now` with `now - start ≥ 15000` and
`start ≥ 0`); in particular it is never the falsy timestamp `0`. -/
def LInv (logic : AlertLogic) : Prop :=
  ∀ t, logic.lastAlertTime = some t → 15000 ≤ t

/-! ## Helper lemmas about the detector step -/

lemma step_suspect (sens : ℚ) (r : DetectionResult) (now : Nat) (last : Option Nat)
    (hguard : ((r.reason != "") && strStartsWith r.reason "OCR Model Loading") = false)
    (hdis : r.isDisconnected = true) (hconf : sens ≤ r.confidence) :
    performCheckStep sens r now ⟨none, last⟩ = (⟨some now, last⟩, none) := by
  simp only [performCheckStep, hguard, hdis, jsFalsy, Bool.false_eq_true, if_false,
    Bool.true_and]
  rw [if_pos (by simpa using hconf)]
  norm_num

lemma step_alert_fires (sens : ℚ) (r : DetectionResult) (now s : Nat) (last : Option Nat)
    (hguard : ((r.reason != "") && strStartsWith r.reason "OCR Model Loading") = false)
    (hdis : r.isDisconnected = true) (hconf : sens ≤ r.confidence)
    (hs : s ≠ 0)
    (hlow : 15000 ≤ (now : Int) - s) (hhigh : (now : Int) - s < 600000)
    (hlast : jsFalsy last = true ∨ ∃ t, last = some t ∧ 60000 ≤ (now : Int) - t) :
    performCheckStep sens r now ⟨some s, last⟩
      = (⟨some s, some now⟩, some ⟨r.reason, (((now : Int) - s) / 1000).toNat⟩) := by
  simp only [performCheckStep, hguard, hdis, jsFalsy, Bool.false_eq_true, if_false,
    Bool.true_and, Option.getD_some, beq_iff_eq]
  rw [if_pos (by simpa using hconf), if_neg hs, if_pos hhigh, if_pos]
  rcases hlast with h | ⟨t, rfl, ht⟩
  · rw [if_pos hlow]
    cases last with
    | none => simp [jsFalsy]
    | some t => simp only [jsFalsy, beq_iff_eq] at h; simp [jsFalsy, h]
  · rw [if_pos hlow]
    simp only [jsFalsy, beq_iff_eq, Option.getD_some]
    split
    · rfl
    · simpa using ht

lemma step_silent (sens : ℚ) (r : DetectionResult) (now s : Nat) (last : Option Nat)
    (hguard : ((r.reason != "") && strStartsWith r.reason "OCR Model Loading") = false)
    (hdis : r.isDisconnected = true) (hconf : sens ≤ r.confidence)
    (hs : s ≠ 0)
    (hhigh : (now : Int) - s < 600000)
    (hno : ¬ (15000 ≤ (now : Int) - s ∧ (jsFalsy last = true ∨
      ∃ t, last = some t ∧ 60000 ≤ (now : Int) - t))) :
    performCheckStep sens r now ⟨some s, last⟩ = (⟨some s, last⟩, none) := by
  simp only [performCheckStep, hguard, hdis, jsFalsy, Bool.false_eq_true, if_false,
    Bool.true_and, Option.getD_some, beq_iff_eq]
  rw [if_pos (by simpa using hconf), if_neg hs, if_pos hhigh, if_neg]
  push_neg at hno
  split
  · rename_i hlow
    specialize hno hlow
    cases last with
    | none => exact absurd rfl hno.1
    | some t =>
      by_cases h : t = 0
      · subst h; exact absurd rfl hno.1
      · have h0 : (t == 0) = false := by simp [h]
        simp only [jsFalsy, h0, Option.getD_some, Bool.false_eq_true, if_false,
          decide_eq_true_eq]
        have ht := hno.2 t rfl
        omega
  · simp

lemma step_ceiling (sens : ℚ) (r : DetectionResult) (now s : Nat) (last : Option Nat)
    (hguard : ((r.reason != "") && strStartsWith r.reason "OCR Model Loading") = false)
    (hdis : r.isDisconnected = true) (hconf : sens ≤ r.confidence)
    (hs : s ≠ 0)
    (hceil : 600000 ≤ (now : Int) - s) :
    performCheckStep sens r now ⟨some s, last⟩ = (⟨some s, last⟩, none) := by
  simp only [performCheckStep, hguard, hdis, jsFalsy, Bool.false_eq_true, if_false,
    Bool.true_and, beq_iff_eq, Option.getD_some]
  rw [if_pos (by simpa using hconf), if_neg hs, if_neg (by omega)]

lemma step_reset (sens : ℚ) (r : DetectionResult) (now s : Nat) (last : Option Nat)
    (hguard : ((r.reason != "") && strStartsWith r.reason "OCR Model Loading") = false)
    (hnacc : (r.isDisconnected && decide (sens ≤ r.confidence)) = false)
    (hs : s ≠ 0) :
    performCheckStep sens r now ⟨some s, last⟩ = (⟨none, none⟩, none) := by
  simp only [performCheckStep, hguard, hnacc, jsFalsy, Bool.false_eq_true, if_false,
    beq_iff_eq]
  rw [if_neg hs]

lemma step_connected_noop (sens : ℚ) (r : DetectionResult) (now : Nat) (logic : AlertLogic)
    (hguard : ((r.reason != "") && strStartsWith r.reason "OCR Model Loading") = false)
    (hnacc : (r.isDisconnected && decide (sens ≤ r.confidence)) = false)
    (hfalsy : jsFalsy logic.disconnectStartTime = true) :
    performCheckStep sens r now logic = (logic, none) := by
  simp only [performCheckStep, hguard, hnacc, hfalsy, Bool.false_eq_true, if_false, if_true]

lemma step_emits_cases (sens : ℚ) (r : DetectionResult) (now : Nat) (logic l' : AlertLogic)
    (e : AlertEvent) (h : performCheckStep sens r now logic = (l', some e)) :
    l'.lastAlertTime = some now ∧ 15000 ≤ now ∧
      (jsFalsy logic.lastAlertTime = true ∨
        ∃ t, logic.lastAlertTime = some t ∧ 60000 ≤ (now : Int) - t) := by
  simp only [performCheckStep] at h
  split_ifs at h
  all_goals try simp at h
  all_goals first
    | exact False.elim (by assumption)
    | (obtain ⟨hl, -⟩ := h
       subst hl
       refine ⟨rfl, by omega, ?_⟩
       by_cases hf : jsFalsy logic.lastAlertTime = true
       · exact Or.inl hf
       · first
         | exact absurd (by assumption) hf
         | (cases hlast : logic.lastAlertTime with
            | none => rw [hlast] at hf; exact absurd rfl hf
            | some t =>
              refine Or.inr ⟨t, rfl, ?_⟩
              have hd : (60000 : Int) ≤ (now : Int) - (logic.lastAlertTime.getD 0 : Nat) :=
                of_decide_eq_true (by assumption)
              rw [hlast] at hd
              simpa using hd))

lemma step_no_emit_last (sens : ℚ) (r : DetectionResult) (now : Nat) (logic l' : AlertLogic)
    (h : performCheckStep sens r now logic = (l', none)) :
    l'.lastAlertTime = logic.lastAlertTime ∨ l'.lastAlertTime = none := by
  simp only [performCheckStep] at h
  split_ifs at h
  all_goals try simp at h
  all_goals first
    | exact False.elim (by assumption)
    | (rw [← h]; simp)

lemma step_preserves_LInv (sens : ℚ) (r : DetectionResult) (now : Nat) (logic : AlertLogic)
    (hinv : LInv logic) : LInv (performCheckStep sens r now logic).1 := by
  rcases hstep : performCheckStep sens r now logic with ⟨l2, ev⟩
  intro t ht
  cases ev with
  | none =>
    rcases step_no_emit_last sens r now logic l2 hstep with h1 | h1
    · rw [h1] at ht; exact hinv t ht
    · rw [h1] at ht; exact Option.noConfusion ht
  | some e =>
    obtain ⟨h1, h2, -⟩ := step_emits_cases sens r now logic l2 e hstep
    rw [h1] at ht
    injection ht with h3
    omega

lemma run_preserves_LInv (sens : ℚ) (ticks : List (DetectionResult × Nat)) :
    ∀ logic : AlertLogic, LInv logic → LInv (runDetector sens ticks logic).1 := by
  induction ticks with
  | nil => exact fun logic h => h
  | cons p rest ih =>
    intro logic h
    obtain ⟨r, now⟩ := p
    simp only [runDetector]
    exact ih _ (step_preserves_LInv sens r now logic h)

lemma run_last_emission (sens : ℚ) (ticks : List (DetectionResult × Nat)) :
    ∀ (logic : AlertLogic) (t : Nat),
      (runDetector sens ticks logic).1.lastAlertTime = some t →
      ((runDetector sens ticks logic).2 = [] ∧ logic.lastAlertTime = some t) ∨
      ((runDetector sens ticks logic).2.map Prod.fst).getLast? = some t := by
  induction ticks with
  | nil => exact fun logic t h => Or.inl ⟨rfl, h⟩
  | cons p rest ih =>
    intro logic t h
    obtain ⟨r, now⟩ := p
    simp only [runDetector] at h ⊢
    rcases hstep : performCheckStep sens r now logic with ⟨l2, ev⟩
    rw [hstep] at h
    rcases ih l2 t h with ⟨hemp, hlast⟩ | hlastE
    · cases ev with
      | none =>
        rcases step_no_emit_last sens r now logic l2 hstep with h1 | h1
        · exact Or.inl ⟨by simp [hemp], by rw [← h1]; exact hlast⟩
        · rw [h1] at hlast; exact Option.noConfusion hlast
      | some e =>
        obtain ⟨h1, -, -⟩ := step_emits_cases sens r now logic l2 e hstep
        rw [h1] at hlast
        injection hlast with h3
        refine Or.inr ?_
        simp [hemp, h3]
    · refine Or.inr ?_
      have hne : ((runDetector sens rest l2).2.map Prod.fst) ≠ [] := by
        intro hnil
        rw [hnil] at hlastE
        exact Option.noConfusion hlastE
      cases ev with
      | none => simpa using hlastE
      | some e =>
        simp only [List.map_append, List.getLast?_append, hlastE]
        rfl

lemma run_ceiling_silent (sens : ℚ) (s : Nat) (last : Option Nat) (hs : s ≠ 0) :
    ∀ ticks : List (DetectionResult × Nat),
      (∀ p ∈ ticks,
        ((p.1.reason != "") && strStartsWith p.1.reason "OCR Model Loading") = false ∧
        p.1.isDisconnected = true ∧ sens ≤ p.1.confidence ∧ s + 600000 ≤ p.2) →
      runDetector sens ticks ⟨some s, last⟩ = (⟨some s, last⟩, []) := by
  intro ticks
  induction ticks with
  | nil => intro _; rfl
  | cons p rest ih =>
    intro h
    obtain ⟨r2, n2⟩ := p
    obtain ⟨hg2, hd2, hc2, ht2⟩ := h (r2, n2) (List.mem_cons_self _ _)
    simp only [runDetector]
    rw [step_ceiling sens r2 n2 s last hg2 hd2 hc2 hs (by omega)]
    simpa using ih (fun p hp => h p (List.mem_cons_of_mem _ hp))

/-- C1: from the Connected state (`disconnectStartTime = null`) the first
accepted tick only records `disconnectStartTime = now` and emits no alert;
an accepted tick whose elapsed time since `disconnectStartTime` is exactly
the 15 s confirmation window, with `lastAlertTime` still null, emits the
first AlertEvent with `durationSeconds = ⌊15000/1000⌋ = 15`; and in
scenario A (accepted ticks of confidence 0.9 against sensitivity 0.7
every 5 s for 30 s from an epoch start time) the one and only alert of the
window fires on the tick 15 s after the start, with `durationSeconds = 15`. -/
theorem C1_confirmation_window (sens : ℚ) (r : DetectionResult) (last : Option Nat)
    (now s : Nat)
    (hguard : ((r.reason != "") && strStartsWith r.reason "OCR Model Loading") = false)
    (hdis : r.isDisconnected = true) (hconf : sens ≤ r.confidence) (hs : s ≠ 0) :
    performCheckStep sens r now ⟨none, last⟩ = (⟨some now, last⟩, none) ∧
    performCheckStep sens r (s + 15000) ⟨some s, none⟩
      = (⟨some s, some (s + 15000)⟩, some ⟨r.reason, 15⟩) ∧
    (runDetector (mkRat 7 10)
        ([0, 5000, 10000, 15000, 20000, 25000, 30000].map
          (fun d => (⟨true, mkRat 9 10, "Detected: \"网络错误\""⟩, 1700000000000 + d)))
        initLogic).2
      = [(1700000015000, ⟨"Detected: \"网络错误\"", 15⟩)] := by
  refine ⟨step_suspect sens r now last hguard hdis hconf, ?_, by decide⟩
  have h := step_alert_fires sens r (s + 15000) s none hguard hdis hconf hs
    (by push_cast; omega) (by push_cast; omega) (Or.inl rfl)
  rw [h]
  have h15 : ((((s + 15000 : Nat) : Int) - (s : Int)) / 1000).toNat = 15 := by
    push_cast
    norm_num
    rfl
  rw [h15]

/-- Witness for C1 at concrete inputs. -/
theorem C1_confirmation_window_witness :
    performCheckStep (mkRat 7 10) ⟨true, mkRat 9 10, "Detected: \"网络错误\""⟩
        1700000000000 ⟨none, none⟩
      = (⟨some 1700000000000, none⟩, none) ∧
    performCheckStep (mkRat 7 10) ⟨true, mkRat 9 10, "Detected: \"网络错误\""⟩
        (1700000000000 + 15000) ⟨some 1700000000000, none⟩
      = (⟨some 1700000000000, some (1700000000000 + 15000)⟩,
          some ⟨"Detected: \"网络错误\"", 15⟩) ∧
    (runDetector (mkRat 7 10)
        ([0, 5000, 10000, 15000, 20000, 25000, 30000].map
          (fun d => (⟨true, mkRat 9 10, "Detected: \"网络错误\""⟩, 1700000000000 + d)))
        initLogic).2
      = [(1700000015000, ⟨"Detected: \"网络错误\"", 15⟩)] :=
  C1_confirmation_window (mkRat 7 10) ⟨true, mkRat 9 10, "Detected: \"网络错误\""⟩
    none 1700000000000 1700000000000 (by decide) (by decide) (by decide) (by decide)

/-- C2: whenever the detector, in a state reached from the initial state
by any tick sequence, emits an AlertEvent while `lastAlertTime = some t`,
the emission time satisfies `now - t ≥ 60000`; and that `t` is the
emission time of the latest previously emitted AlertEvent. -/
theorem C2_repeat_interval (sens : ℚ) (ticks : List (DetectionResult × Nat))
    (r : DetectionResult) (now t : Nat) (l' : AlertLogic) (e : AlertEvent)
    (hlast : (runDetector sens ticks initLogic).1.lastAlertTime = some t)
    (hstep : performCheckStep sens r now (runDetector sens ticks initLogic).1
      = (l', some e)) :
    60000 ≤ (now : Int) - t ∧
    ((runDetector sens ticks initLogic).2.map Prod.fst).getLast? = some t := by
  have hinv : LInv (runDetector sens ticks initLogic).1 :=
    run_preserves_LInv sens ticks initLogic (fun u hu => Option.noConfusion hu)
  constructor
  · obtain ⟨-, -, hdisj⟩ := step_emits_cases sens r now _ l' e hstep
    rcases hdisj with hf | ⟨t', ht', hge⟩
    · rw [hlast] at hf
      simp only [jsFalsy, beq_iff_eq] at hf
      have := hinv t hlast
      omega
    · rw [hlast] at ht'
      injection ht' with h3
      subst h3
      exact hge
  · rcases run_last_emission sens ticks initLogic t hlast with ⟨-, hcontra⟩ | hOK
    · exact Option.noConfusion hcontra
    · exact hOK

/-- Witness for C2 at concrete inputs: after an alert at epoch+16 s, the
next alert fires at epoch+76 s, exactly 60 s later. -/
theorem C2_repeat_interval_witness :
    (60000 : Int) ≤ ((1700000076000 : Nat) : Int) - (1700000016000 : Nat) ∧
    ((runDetector (mkRat 7 10)
        [(⟨true, mkRat 9 10, "Detected: \"网络错误\""⟩, 1700000000000),
         (⟨true, mkRat 9 10, "Detected: \"网络错误\""⟩, 1700000016000)]
        initLogic).2.map Prod.fst).getLast? = some 1700000016000 :=
  C2_repeat_interval (mkRat 7 10)
    [(⟨true, mkRat 9 10, "Detected: \"网络错误\""⟩, 1700000000000),
     (⟨true, mkRat 9 10, "Detected: \"网络错误\""⟩, 1700000016000)]
    ⟨true, mkRat 9 10, "Detected: \"网络错误\""⟩ 1700000076000 1700000016000
    ⟨some 1700000000000, some 1700000076000⟩ ⟨"Detected: \"网络错误\"", 76⟩
    (by decide) (by decide)

/-- C3: once the elapsed time since `disconnectStartTime` reaches the
600 s ceiling, an accepted tick leaves the state unchanged and emits
nothing; a whole run of accepted ticks at or past the ceiling emits no
alerts and does not reset the state; and only a non-accepted (connected)
tick resets `disconnectStartTime` and `lastAlertTime` to null. -/
theorem C3_ceiling_suppression (sens : ℚ) (r rc : DetectionResult)
    (ticks : List (DetectionResult × Nat)) (s now now2 : Nat) (last : Option Nat)
    (hs : s ≠ 0)
    (hguard : ((r.reason != "") && strStartsWith r.reason "OCR Model Loading") = false)
    (hdis : r.isDisconnected = true) (hconf : sens ≤ r.confidence)
    (hceil : 600000 ≤ (now : Int) - s)
    (hticks : ∀ p ∈ ticks,
      ((p.1.reason != "") && strStartsWith p.1.reason "OCR Model Loading") = false ∧
      p.1.isDisconnected = true ∧ sens ≤ p.1.confidence ∧ s + 600000 ≤ p.2)
    (hrcguard : ((rc.reason != "") && strStartsWith rc.reason "OCR Model Loading") = false)
    (hrc : rc.isDisconnected = false) :
    performCheckStep sens r now ⟨some s, last⟩ = (⟨some s, last⟩, none) ∧
    runDetector sens ticks ⟨some s, last⟩ = (⟨some s, last⟩, []) ∧
    performCheckStep sens rc now2 ⟨some s, last⟩ = (⟨none, none⟩, none) :=
  ⟨step_ceiling sens r now s last hguard hdis hconf hs hceil,
   run_ceiling_silent sens s last hs ticks hticks,
   step_reset sens rc now2 s last hrcguard (by simp [hrc]) hs⟩

/-- Witness for C3 at concrete inputs: 600 s into the outage the accepted
tick is silent and the state survives; a later connected tick resets it. -/
theorem C3_ceiling_suppression_witness :
    performCheckStep (mkRat 7 10) ⟨true, mkRat 9 10, "Detected: \"网络错误\""⟩
        1700000600000 ⟨some 1700000000000, some 1700000555000⟩
      = (⟨some 1700000000000, some 1700000555000⟩, none) ∧
    runDetector (mkRat 7 10)
        [(⟨true, mkRat 9 10, "Detected: \"网络错误\""⟩, 1700000605000)]
        ⟨some 1700000000000, some 1700000555000⟩
      = (⟨some 1700000000000, some 1700000555000⟩, []) ∧
    performCheckStep (mkRat 7 10) ⟨false, 0, "No error text detected"⟩
        1700000610000 ⟨some 1700000000000, some 1700000555000⟩
      = (⟨none, none⟩, none) :=
  C3_ceiling_suppression (mkRat 7 10) ⟨true, mkRat 9 10, "Detected: \"网络错误\""⟩
    ⟨false, 0, "No error text detected"⟩
    [(⟨true, mkRat 9 10, "Detected: \"网络错误\""⟩, 1700000605000)]
    1700000000000 1700000600000 1700000610000 (some 1700000555000)
    (by decide) (by decide) (by decide) (by decide) (by decide) (by decide)
    (by decide) (by decide)

/-- Counterexample to C6: in the scenario of accepted ticks (confidence
0.9 against sensitivity 0.7) every 5 s for 700 s, no AlertEvent is
emitted on the tick 615 s after the start — at elapsed 615000 ms the
guard `durationMs < 600000` already fails, so the last alert of the
outage is the one at 555 s. -/
theorem C6_no_alert_at_615s :
    ¬ ((1700000000000 + 615000 : Nat) ∈
        ((runDetector (mkRat 7 10) ((List.range 141).map
          (fun k => (⟨true, mkRat 9 10, "Detected: \"网络错误\""⟩,
            1700000000000 + 5000 * k)))
          initLogic).2.map Prod.fst)) := by decide

/-- C6 as amended: in that scenario the emitted AlertEvents are exactly
those at t = 15, 75, 135, ..., 555 s (elapsed durations 15 s up to 555 s
in 60 s steps), and none at or after the 600 s ceiling — in particular
none at 615 s — through the end of the 700 s run. -/
theorem C6_alert_schedule :
    (runDetector (mkRat 7 10) ((List.range 141).map
        (fun k => (⟨true, mkRat 9 10, "Detected: \"网络错误\""⟩,
          1700000000000 + 5000 * k)))
        initLogic).2
      = [(1700000015000, ⟨"Detected: \"网络错误\"", 15⟩),
         (1700000075000, ⟨"Detected: \"网络错误\"", 75⟩),
         (1700000135000, ⟨"Detected: \"网络错误\"", 135⟩),
         (1700000195000, ⟨"Detected: \"网络错误\"", 195⟩),
         (1700000255000, ⟨"Detected: \"网络错误\"", 255⟩),
         (1700000315000, ⟨"Detected: \"网络错误\"", 315⟩),
         (1700000375000, ⟨"Detected: \"网络错误\"", 375⟩),
         (1700000435000, ⟨"Detected: \"网络错误\"", 435⟩),
         (1700000495000, ⟨"Detected: \"网络错误\"", 495⟩),
         (1700000555000, ⟨"Detected: \"网络错误\"", 555⟩)] := by decide

/-- Counterexample to C7: a transient recognition error yields the
failure result `{false, 0, "OCR Failed: ..."}`, and feeding it to the
detector in a Suspected/Alerting state RESETS `disconnectStartTime` and
`lastAlertTime` (the connected branch runs), rather than leaving them
unchanged as the claim states. -/
theorem C7_failure_resets_state :
    analyzeFrame ⟨true, none⟩ (some "processed") (.error "recognize failed")
      = ⟨false, 0, "OCR Failed: recognize failed"⟩ ∧
    performCheckStep (mkRat 7 10)
        (analyzeFrame ⟨true, none⟩ (some "processed") (.error "recognize failed"))
        1700000020000 ⟨some 1700000000000, some 1700000016000⟩
      = (⟨none, none⟩, none) ∧
    ((⟨none, none⟩ : AlertLogic)
      ≠ ⟨some 1700000000000, some 1700000016000⟩) := by decide

/-- C7 as amended: a transient analysis failure (recognition or transport
error) yields the non-accepted failure result
`{isDisconnected := false, confidence := 0, reason := "OCR Failed: ..."}`,
and on such a tick the detector takes the connected branch: a non-null
`disconnectStartTime` together with `lastAlertTime` is reset to null
(the in-progress Suspected/Alerting state IS reset, exactly as for any
other non-accepted tick). -/
theorem C7_failure_nonaccepted_reset (msg pimg : String) (sens : ℚ) (now s : Nat)
    (last : Option Nat) (hs : s ≠ 0) :
    analyzeFrame ⟨true, none⟩ (some pimg) (.error msg)
      = ⟨false, 0, "OCR Failed: " ++ msg⟩ ∧
    performCheckStep sens (analyzeFrame ⟨true, none⟩ (some pimg) (.error msg)) now
        ⟨some s, last⟩
      = (⟨none, none⟩, none) := by
  refine ⟨rfl, ?_⟩
  exact step_reset sens _ now s last rfl rfl hs

/-- Witness for C7 (amended) at concrete inputs. -/
theorem C7_failure_nonaccepted_reset_witness :
    analyzeFrame ⟨true, none⟩ (some "processed") (.error "network down")
      = ⟨false, 0, "OCR Failed: " ++ "network down"⟩ ∧
    performCheckStep (mkRat 7 10)
        (analyzeFrame ⟨true, none⟩ (some "processed") (.error "network down"))
        1700000020000 ⟨some 1700000000000, some 1700000016000⟩
      = (⟨none, none⟩, none) :=
  C7_failure_nonaccepted_reset "network down" "processed" (mkRat 7 10)
    1700000020000 1700000000000 (some 1700000016000) (by decide)

/-- Counterexample to C8: the pre-initialization placeholder result makes
`performCheck` return early, leaving the detector state untouched — it
does NOT take the connected branch, which would have reset a non-null
`disconnectStartTime` (as the genuine connected result does). -/
theorem C8_loading_not_connected_branch :
    analyzeFrame ⟨false, none⟩ none (.error "ignored")
      = ⟨false, 0, "OCR Model Loading..."⟩ ∧
    performCheckStep (mkRat 7 10) (analyzeFrame ⟨false, none⟩ none (.error "ignored"))
        1700000020000 ⟨some 1700000000000, none⟩
      = (⟨some 1700000000000, none⟩, none) ∧
    performCheckStep (mkRat 7 10) ⟨false, 0, "No error text detected"⟩
        1700000020000 ⟨some 1700000000000, none⟩
      = (⟨none, none⟩, none) ∧
    ((⟨some 1700000000000, none⟩ : AlertLogic) ≠ ⟨none, none⟩) := by decide

/-- C8 as amended: every analyze call made before the backend is ready
(worker not yet created, no permanent init error) returns the non-error
placeholder `{false, 0, "OCR Model Loading..."}`, and on such a tick
`performCheck` returns before the alert logic runs: the detector state is
left unchanged and no alert is emitted — which from the Connected state
(`disconnectStartTime = null`) is observationally a connected tick, and
is never alert-eligible. -/
theorem C8_loading_placeholder_noop (pre : Option String)
    (recog : Except String (String × ℚ)) (sens : ℚ) (now : Nat) (logic : AlertLogic) :
    analyzeFrame ⟨false, none⟩ pre recog = ⟨false, 0, "OCR Model Loading..."⟩ ∧
    performCheckStep sens (analyzeFrame ⟨false, none⟩ pre recog) now logic
      = (logic, none) := by
  refine ⟨rfl, ?_⟩
  have hg : ((("OCR Model Loading..." : String) != "") &&
      strStartsWith "OCR Model Loading..." "OCR Model Loading") = true := by decide
  show performCheckStep sens ⟨false, 0, "OCR Model Loading..."⟩ now logic = (logic, none)
  simp only [performCheckStep, hg, if_true]

/-- C5: whenever any keyword of `errorKeywords` matches the normalized
recognized text, the local analyzer reports `isDisconnected = true` with
`confidence = max(0.85, recognizerConfidence / 100)` — never below 0.85,
even for recognizer confidence 0. -/
theorem C5_keyword_confidence_floor (text pimg : String) (c : ℚ)
    (h : errorKeywords.any (fun k => kwTest k (normalizeText text)) = true) :
    (analyzeFrame ⟨true, none⟩ (some pimg) (.ok (text, c))).isDisconnected = true ∧
    (analyzeFrame ⟨true, none⟩ (some pimg) (.ok (text, c))).confidence
      = max (mkRat 85 100) (c / 100) ∧
    mkRat 85 100 ≤ (analyzeFrame ⟨true, none⟩ (some pimg) (.ok (text, c))).confidence := by
  have hfind : (errorKeywords.find? (fun k => kwTest k (normalizeText text))).isSome := by
    rw [List.find?_isSome]
    simpa using h
  obtain ⟨k, hk⟩ := Option.isSome_iff_exists.mp hfind
  have he : analyzeFrame ⟨true, none⟩ (some pimg) (.ok (text, c))
      = analyzeRecognized text c := rfl
  rw [he]
  simp only [analyzeRecognized, hk]
  exact ⟨trivial, trivial, le_max_left _ _⟩

/-- Witness for C5: a frame whose recognized text contains 网络错误, with
recognizer confidence 0, is reported disconnected at confidence 0.85. -/
theorem C5_keyword_confidence_floor_witness :
    (analyzeFrame ⟨true, none⟩ (some "img") (.ok ("网络 错误!", 0))).isDisconnected
      = true ∧
    (analyzeFrame ⟨true, none⟩ (some "img") (.ok ("网络 错误!", 0))).confidence
      = max (mkRat 85 100) (0 / 100) ∧
    mkRat 85 100
      ≤ (analyzeFrame ⟨true, none⟩ (some "img") (.ok ("网络 错误!", 0))).confidence :=
  C5_keyword_confidence_floor "网络 错误!" "img" 0 (by decide)

/-- C10: the binarization step of `preprocessImage` (luminosity grayscale
with the BT.709 weights, threshold 160) is the identity on every image
whose pixels are all pure white (255,255,255) or pure black (0,0,0), so
re-binarizing an already binarized image is a no-op. -/
theorem C10_binarize_idempotent_on_bw (img : List Pixel)
    (h : ∀ p ∈ img, (p.r = 255 ∧ p.g = 255 ∧ p.b = 255) ∨
      (p.r = 0 ∧ p.g = 0 ∧ p.b = 0)) :
    img.map (binarizePixel binarizationThreshold) = img := by
  induction img with
  | nil => rfl
  | cons p rest ih =>
    simp only [List.map_cons]
    rw [ih (fun q hq => h q (List.mem_cons_of_mem _ hq))]
    obtain ⟨pr, pg, pb, pa⟩ := p
    rcases h _ (List.mem_cons_self _ _) with ⟨hr, hg, hb⟩ | ⟨hr, hg, hb⟩ <;>
      simp only at hr hg hb <;> subst hr <;> subst hg <;> subst hb
    · have h1 : binarizationThreshold ≤ grayscale ⟨255, 255, 255, pa⟩ := by
        unfold grayscale binarizationThreshold
        norm_num
      simp [binarizePixel, h1]
    · have h1 : ¬ binarizationThreshold ≤ grayscale ⟨0, 0, 0, pa⟩ := by
        unfold grayscale binarizationThreshold
        norm_num
      simp [binarizePixel, h1]

/-- Witness for C10: a two-pixel pure white / pure black image is fixed
by the binarization step. -/
theorem C10_binarize_idempotent_on_bw_witness :
    [(⟨255, 255, 255, 255⟩ : Pixel), ⟨0, 0, 0, 255⟩].map
        (binarizePixel binarizationThreshold)
      = [⟨255, 255, 255, 255⟩, ⟨0, 0, 0, 255⟩] :=
  C10_binarize_idempotent_on_bw [⟨255, 255, 255, 255⟩, ⟨0, 0, 0, 255⟩] (by decide)

/-- Counterexample to C9: `preprocessImage` is not total — when the frame
cannot be decoded (`img.onerror` fires) the promise REJECTS
(`img.onerror = reject`) instead of resolving with the original frame. -/
theorem C9_preprocess_rejects_on_decode_error :
    preprocessImage (fun img _ _ => img) (fun _ => "data:image/jpeg;base64,enc")
        "data:image/jpeg;base64,orig" false none true
      = none ∧
    (none : Option String) ≠ some "data:image/jpeg;base64,orig" := ⟨rfl, by decide⟩

/-- C9 as amended: `preprocessImage` never fails once the frame has
decoded — an unobtainable drawing context resolves with the original
frame unmodified, and otherwise it resolves with the processed encoding;
only a frame that fails to decode makes it reject (and that rejection is
caught inside `analyzeFrame`, which converts it to a failure
DetectionResult, so analysis still proceeds). -/
theorem C9_preprocess_total_when_decoded (drawImage : RawImage → Nat → Nat → RawImage)
    (encodeJpeg : RawImage → String) (base64Image : String) (focusMode : Bool)
    (img : RawImage) (ctxAvail : Bool) :
    (ctxAvail = false →
      preprocessImage drawImage encodeJpeg base64Image focusMode (some img) ctxAvail
        = some base64Image) ∧
    (preprocessImage drawImage encodeJpeg base64Image focusMode (some img)
      ctxAvail).isSome = true := by
  constructor
  · intro h
    subst h
    rfl
  · cases ctxAvail <;> rfl

/-- Witness for C9 (amended): with no drawing context available the
original frame comes back unmodified, and the call succeeds. -/
theorem C9_preprocess_total_when_decoded_witness :
    preprocessImage (fun img _ _ => img) (fun _ => "data:image/jpeg;base64,enc")
        "data:image/jpeg;base64,orig" false (some ⟨2, 2, []⟩) false
      = some "data:image/jpeg;base64,orig" ∧
    (preprocessImage (fun img _ _ => img) (fun _ => "data:image/jpeg;base64,enc")
        "data:image/jpeg;base64,orig" false (some ⟨2, 2, []⟩) false).isSome = true :=
  ⟨(C9_preprocess_total_when_decoded (fun img _ _ => img)
      (fun _ => "data:image/jpeg;base64,enc") "data:image/jpeg;base64,orig" false
      ⟨2, 2, []⟩ false).1 rfl,
   (C9_preprocess_total_when_decoded (fun img _ _ => img)
      (fun _ => "data:image/jpeg;base64,enc") "data:image/jpeg;base64,orig" false
      ⟨2, 2, []⟩ false).2⟩

lemma flatMap_replay_eq_map (q : List QueuedAlert) (h : ∀ it ∈ q, WfQueued it) :
    q.flatMap replayAttempt
      = q.map (fun it => { url := it.url, body := it.body, kind := it.kind }) := by
  induction q with
  | nil => rfl
  | cons a rest ih =>
    simp only [List.flatMap_cons, List.map_cons]
    rw [ih (fun it hit => h it (List.mem_cons_of_mem _ hit))]
    obtain ⟨h1, h2⟩ := h a (List.mem_cons_self _ _)
    cases hk : a.kind with
    | meow => simp [replayAttempt, hk, h1 hk]
    | webhook =>
      obtain ⟨b, hb⟩ := Option.isSome_iff_exists.mp (h2 hk)
      simp [replayAttempt, hk, hb]

/-- C4: a dispatch made while `navigator.onLine` is false sends nothing
immediately; it appends exactly one QueuedAlert per configured
destination (one meow item iff a meow code is set, one webhook item iff a
webhook URL is set) after the existing queue; and a subsequent
connectivity-restored replay re-attempts the whole queue in its original
enqueue order and leaves the queue empty. -/
theorem C4_offline_queue_and_replay (s : Settings) (result : DetectionResult)
    (durationSec now : Nat) (ts iso : String) (queue : List QueuedAlert)
    (hq : ∀ it ∈ queue, WfQueued it) :
    (triggerAlert s result durationSec false now ts iso queue).1 = [] ∧
    (triggerAlert s result durationSec false now ts iso queue).2.take queue.length
      = queue ∧
    ((triggerAlert s result durationSec false now ts iso queue).2.drop
        queue.length).countP (fun it => it.kind == DestKind.meow)
      = (if s.meowCode != "" then 1 else 0) ∧
    ((triggerAlert s result durationSec false now ts iso queue).2.drop
        queue.length).countP (fun it => it.kind == DestKind.webhook)
      = (if s.webhookUrl != "" then 1 else 0) ∧
    processAlertQueue (triggerAlert s result durationSec false now ts iso queue).2
      = ((triggerAlert s result durationSec false now ts iso queue).2.map
          (fun it => { url := it.url, body := it.body, kind := it.kind }), []) := by
  have hq' : ∀ it ∈ (triggerAlert s result durationSec false now ts iso queue).2,
      WfQueued it := by
    intro it hit
    simp only [triggerAlert] at hit
    rcases List.mem_append.mp hit with hit' | hit'
    · rcases List.mem_append.mp hit' with hx | hx
      · exact hq it hx
      · by_cases hm : (s.meowCode != "") = true
        · simp only [hm, if_true, Bool.false_eq_true, if_false] at hx
          rcases List.mem_singleton.mp hx with rfl
          exact ⟨fun _ => rfl, fun hco => by simp at hco⟩
        · simp only [hm, if_false] at hx
          simp at hx
    · by_cases hw : (s.webhookUrl != "") = true
      · simp only [hw, if_true, Bool.false_eq_true, if_false] at hit'
        rcases List.mem_singleton.mp hit' with rfl
        exact ⟨fun hco => by simp at hco, fun _ => rfl⟩
      · simp only [hw, if_false] at hit'
        simp at hit'
  refine ⟨?_, ?_, ?_, ?_, ?_⟩
  · by_cases hm : (s.meowCode != "") = true <;> by_cases hw : (s.webhookUrl != "") = true <;>
      simp [triggerAlert, hm, hw]
  · by_cases hm : (s.meowCode != "") = true <;> by_cases hw : (s.webhookUrl != "") = true <;>
      simp [triggerAlert, hm, hw, List.take_left]
  · by_cases hm : (s.meowCode != "") = true <;> by_cases hw : (s.webhookUrl != "") = true <;>
      simp [triggerAlert, hm, hw, List.drop_left, List.countP_cons]
  · by_cases hm : (s.meowCode != "") = true <;> by_cases hw : (s.webhookUrl != "") = true <;>
      simp [triggerAlert, hm, hw, List.drop_left, List.countP_cons]
  · rcases hcase : (triggerAlert s result durationSec false now ts iso queue).2 with _ | ⟨a, rest⟩
    · rfl
    · rw [processAlertQueue, if_neg (by simp), ← hcase]
      rw [flatMap_replay_eq_map _ hq']

/-- Witness for C4: an offline dispatch with both destinations configured
and an empty prior queue sends nothing, queues exactly one item per
destination, and replay drains both in order leaving the queue empty. -/
theorem C4_offline_queue_and_replay_witness :
    (triggerAlert ⟨"https://example.com/hook", "t123", 5, mkRat 7 10, false⟩
        ⟨true, mkRat 9 10, "Detected: \"网络错误\""⟩ 15 false 1700000015000
        "ts" "iso" []).1 = [] ∧
    (triggerAlert ⟨"https://example.com/hook", "t123", 5, mkRat 7 10, false⟩
        ⟨true, mkRat 9 10, "Detected: \"网络错误\""⟩ 15 false 1700000015000
        "ts" "iso" []).2.take ([] : List QueuedAlert).length = [] ∧
    ((triggerAlert ⟨"https://example.com/hook", "t123", 5, mkRat 7 10, false⟩
        ⟨true, mkRat 9 10, "Detected: \"网络错误\""⟩ 15 false 1700000015000
        "ts" "iso" []).2.drop ([] : List QueuedAlert).length).countP
        (fun it => it.kind == DestKind.meow)
      = (if ("t123" : String) != "" then 1 else 0) ∧
    ((triggerAlert ⟨"https://example.com/hook", "t123", 5, mkRat 7 10, false⟩
        ⟨true, mkRat 9 10, "Detected: \"网络错误\""⟩ 15 false 1700000015000
        "ts" "iso" []).2.drop ([] : List QueuedAlert).length).countP
        (fun it => it.kind == DestKind.webhook)
      = (if ("https://example.com/hook" : String) != "" then 1 else 0) ∧
    processAlertQueue (triggerAlert
        ⟨"https://example.com/hook", "t123", 5, mkRat 7 10, false⟩
        ⟨true, mkRat 9 10, "Detected: \"网络错误\""⟩ 15 false 1700000015000
        "ts" "iso" []).2
      = ((triggerAlert ⟨"https://example.com/hook", "t123", 5, mkRat 7 10, false⟩
          ⟨true, mkRat 9 10, "Detected: \"网络错误\""⟩ 15 false 1700000015000
          "ts" "iso" []).2.map
            (fun it => { url := it.url, body := it.body, kind := it.kind }), []) :=
  C4_offline_queue_and_replay
    ⟨"https://example.com/hook", "t123", 5, mkRat 7 10, false⟩
    ⟨true, mkRat 9 10, "Detected: \"网络错误\""⟩ 15 1700000015000 "ts" "iso" []
    (by simp)
